import Mathlib

/-!
Verification of the Telegram-channel-to-RSS converter (`src/app.py`).

The markup tree produced by the external parser (BeautifulSoup with
`html.parser`) is embedded as a mutual inductive `Node`/`NodeList`.
Tree queries (`find`, `find_all`), serialization (`decode_contents`),
text extraction (`.text`), attribute access (`tag[key]`, raising
`KeyError` when absent) and truthiness (a bs4 `Tag` is always truthy,
`None` is falsy) are embedded faithfully.  Fallible Python code is
embedded in `Except PyErr`, where `PyErr` distinguishes the exception
classes the code can actually raise: `KeyError` from `tag[key]`,
`TypeError` from subscripting `None`, and `AttributeError` from calling
a method on `None`.
-/

/-- Python exception kinds reachable in `app.py`. -/
inductive PyErr where
  | keyError (key : String)
  | typeError
  | attributeError
deriving Repr, DecidableEq

/-- The `Feed` named tuple of `app.py` (one RSS item). -/
structure Feed where
  title : String
  description : String
  pub_date : String
  link : String
  author : String
deriving Repr, DecidableEq

/-- The `Rss` named tuple of `app.py` (channel-level RSS headers). -/
structure Rss where
  title : String
  description : String
  link : String
  last_build_date : String
  feeds : List Feed
deriving Repr, DecidableEq

mutual
/-- A node of the parsed markup tree: either a text node (bs4
`NavigableString`) or an element (bs4 `Tag`) with a tag name, an
attribute list and children. -/
inductive Node where
  | text (s : String)
  | elem (tag : String) (attrs : List (String × String)) (children : NodeList)
deriving Repr, DecidableEq

/-- Children of an element, as a mutually inductive list so that all
tree traversals are structurally recursive. -/
inductive NodeList where
  | nil
  | cons (head : Node) (tail : NodeList)
deriving Repr, DecidableEq
end

/-- Build a `NodeList` from a `List Node` (convenience for concrete
test pages). -/
def nodesOf : List Node → NodeList
  | [] => .nil
  | n :: rest => .cons n (nodesOf rest)

/-- The children of a node (text nodes have none). -/
def Node.childrenOf : Node → NodeList
  | .text _ => .nil
  | .elem _ _ cs => cs

/-- The attribute list of a node (text nodes have none). -/
def Node.attrsOf : Node → List (String × String)
  | .text _ => []
  | .elem _ as _ => as

/-- Embeds bs4 attribute lookup `tag.get(key)`: first binding of `key`
in the attribute list, if any. -/
def getAttr (n : Node) (key : String) : Option String :=
  (n.attrsOf.find? (fun p => p.1 == key)).map (fun p => p.2)

/-- Split a raw class-attribute value at ASCII whitespace, the way
`html.parser` turns `class` into a multi-valued attribute. -/
def splitWs (l : List Char) : List (List Char) :=
  match l with
  | [] => [[]]
  | c :: rest =>
    if c == ' ' || c == '\t' || c == '\n' || c == '\r' then
      [] :: splitWs rest
    else
      match splitWs rest with
      | [] => [[c]]
      | w :: ws => (c :: w) :: ws

/-- The class list of a node: its `class` attribute split at whitespace
(empty when the attribute is absent). -/
def classesOf (n : Node) : List String :=
  (splitWs ((getAttr n "class").getD "").toList).map (fun w => String.mk w)

/-- Embeds the bs4 filter `find(tagName, {'class': className})`: an
element with the given tag name whose class list contains `className`. -/
def byTagClass (tagName className : String) (n : Node) : Bool :=
  match n with
  | .elem t _ _ => t == tagName && (classesOf n).contains className
  | .text _ => false

/-- Embeds the bs4 filter `find(tagName, {key: value})` for a plain
(non-multi-valued) attribute: exact attribute-value match. -/
def byTagAttr (tagName key value : String) (n : Node) : Bool :=
  match n with
  | .elem t _ _ => t == tagName && getAttr n key == some value
  | .text _ => false

/-- Embeds the bs4 filter `find(tagName)`: any element with the given
tag name. -/
def byTag (tagName : String) (n : Node) : Bool :=
  match n with
  | .elem t _ _ => t == tagName
  | .text _ => false

mutual
/-- First node of the subtree rooted at `n` (self included) satisfying
`p`, in document (pre-)order. -/
def findN (p : Node → Bool) : Node → Option Node
  | .text s => if p (.text s) then some (.text s) else none
  | .elem t a cs =>
    if p (.elem t a cs) then some (.elem t a cs) else findL p cs

/-- First node in a forest satisfying `p`, in document order. -/
def findL (p : Node → Bool) : NodeList → Option Node
  | .nil => none
  | .cons n rest =>
    match findN p n with
    | some m => some m
    | none => findL p rest
end

/-- Embeds bs4 `tag.find(...)`: first matching strict descendant of
`n`, in document order. -/
def Node.findFirst (n : Node) (p : Node → Bool) : Option Node :=
  findL p n.childrenOf

mutual
/-- All nodes of the subtree rooted at `n` (self included) satisfying
`p`, in document order. -/
def findAllN (p : Node → Bool) : Node → List Node
  | .text s => if p (.text s) then [.text s] else []
  | .elem t a cs =>
    (if p (.elem t a cs) then [Node.elem t a cs] else []) ++ findAllL p cs

/-- All nodes in a forest satisfying `p`, in document order. -/
def findAllL (p : Node → Bool) : NodeList → List Node
  | .nil => []
  | .cons n rest => findAllN p n ++ findAllL p rest
end

/-- Embeds bs4 `tag.find_all(...)`: all matching strict descendants of
`n`, in document order. -/
def Node.findAllDesc (n : Node) (p : Node → Bool) : List Node :=
  findAllL p n.childrenOf

/-- Serialize an attribute list back to markup. -/
def renderAttrs : List (String × String) → String
  | [] => ""
  | (k, v) :: rest => " " ++ k ++ "=\"" ++ v ++ "\"" ++ renderAttrs rest

mutual
/-- Serialize one node back to markup (bs4 `decode`). -/
def renderNode : Node → String
  | .text s => s
  | .elem t a cs =>
    "<" ++ t ++ renderAttrs a ++ ">" ++ renderList cs ++ "</" ++ t ++ ">"

/-- Serialize a forest back to markup. -/
def renderList : NodeList → String
  | .nil => ""
  | .cons n rest => renderNode n ++ renderList rest
end

/-- Embeds bs4 `tag.decode_contents()`: the serialized markup of the
children of `n`. -/
def decodeContents (n : Node) : String := renderList n.childrenOf

mutual
/-- Embeds bs4 `tag.text` / `get_text()`: the concatenation of all text
nodes of the subtree. -/
def textOf : Node → String
  | .text s => s
  | .elem _ _ cs => textOfList cs

/-- Concatenation of all text nodes of a forest. -/
def textOfList : NodeList → String
  | .nil => ""
  | .cons n rest => textOf n ++ textOfList rest
end

/-- Python whitespace characters recognized by `str.strip()` (ASCII). -/
def isPySpace (c : Char) : Bool :=
  c == ' ' || c == '\t' || c == '\n' || c == '\r' || c == '\x0b' || c == '\x0c'

/-- Embeds Python `str.strip()`: drop leading and trailing whitespace. -/
def pyStrip (s : String) : String :=
  String.mk (((s.toList.dropWhile isPySpace).reverse.dropWhile isPySpace).reverse)

/-- Largest index `j` in `l` at which the two-character closing sequence
quote-parenthesis starts (the position where the greedy group of
`url\x28'(.*)'\x29` hands back). -/
def lastClose (l : List Char) : Option Nat :=
  (List.range l.length).foldl
    (fun acc j => if ['\x27', ')'].isPrefixOf (l.drop j) then some j else acc)
    none

/-- Embeds `re.search(r"url\x28'(.*)'\x29", s)` from `parse_image`:
scan for the leftmost position where the literal `url('` matches and a
closing sequence follows on the same line (`.` does not cross newlines),
and return the greedy capture, i.e. everything up to the last closing
sequence on that line. -/
def searchUrl : List Char → Option (List Char)
  | [] => none
  | c :: cs =>
    if "url(\x27".toList.isPrefixOf (c :: cs) then
      let line := ((c :: cs).drop 5).takeWhile (fun d => d != '\n')
      match lastClose line with
      | some j => some (line.take j)
      | none => searchUrl cs
    else searchUrl cs

/-- Embeds `parse_image` from `app.py`: read the `style` attribute
(`image['style']`, `KeyError` when absent), match the background-image
URL pattern, and return an `img` tag on a match and the empty string
otherwise. -/
def parse_image (image : Node) : Except PyErr String :=
  match getAttr image "style" with
  | none => .error (.keyError "style")
  | some image_style =>
    match searchUrl image_style.toList with
    | none => .ok ""
    | some image_link =>
      .ok ("<img src=\"" ++ String.mk image_link ++ "\" referrerpolicy=\"no-referrer\">")

/-- The f-string of `parse_reply`, with the three interpolated values. -/
def replyFormat (href author text : String) : String :=
  "<div class=\"rsshub-quote\">\n        <blockquote>\n            <p><a href=\""
    ++ href ++ "\"><b>" ++ author ++ "</b>:</a></p>\n            <p>"
    ++ text ++ "</p>\n        </blockquote>\n    </div>"

/-- Embeds `parse_reply` from `app.py`: read the author span and the
quoted-text div (`AttributeError` when `find` returned `None`), read the
anchor's `href` (`KeyError` when absent), and build the blockquote. -/
def parse_reply (reply : Node) : Except PyErr String :=
  match reply.findFirst (byTagClass "span" "tgme_widget_message_author_name") with
  | none => .error .attributeError
  | some authorTag =>
    let author := decodeContents authorTag
    match reply.findFirst (byTagClass "div" "js-message_reply_text") with
    | none => .error .attributeError
    | some textTag =>
      let text := decodeContents textTag
      match getAttr reply "href" with
      | none => .error (.keyError "href")
      | some href => .ok (replyFormat href author text)

/-- The f-string of `parse_preview`, with the four interpolated values. -/
def previewFormat (site_name title_text description_text image_text : String) : String :=
  "<blockquote>\n        <b>" ++ site_name ++ "</b><br>\n        <b>"
    ++ title_text ++ "</b><br>\n        " ++ description_text
    ++ "\n        " ++ image_text ++ "\n    </blockquote>"

/-- Embeds `parse_preview` from `app.py`: required site name
(`AttributeError` when absent), optional image (delegating to
`parse_image`), titled link falling back to the site name, optional
description paragraph. -/
def parse_preview (preview : Node) : Except PyErr String :=
  match preview.findFirst (byTagClass "div" "link_preview_site_name") with
  | none => .error .attributeError
  | some siteTag =>
    let site_name := decodeContents siteTag
    match
      (match preview.findFirst (byTagClass "i" "link_preview_image") with
       | some image => parse_image image
       | none => .ok "") with
    | .error e => .error e
    | .ok image_text =>
      let preview_title := preview.findFirst (byTagClass "div" "link_preview_title")
      match getAttr preview "href" with
      | none => .error (.keyError "href")
      | some href =>
        let preview_title_text :=
          "<a href=\"" ++ href ++ "\">"
            ++ (match preview_title with
                | some t => decodeContents t
                | none => site_name)
            ++ "</a>"
        let preview_description_text :=
          match preview.findFirst (byTagClass "div" "link_preview_description") with
          | some d => "<p>" ++ decodeContents d ++ "</p>"
          | none => ""
        .ok (previewFormat site_name preview_title_text preview_description_text image_text)

/-- The body seed of `parse_feed` (lines 135-142 of `app.py`): the
contents of the nested `js-message_text` div when one exists inside the
outer one, else the contents of the outer one, else the empty string. -/
def bodySeed (feed_tag : Node) : String :=
  match feed_tag.findFirst (byTagClass "div" "js-message_text") with
  | none => ""
  | some text_content =>
    match text_content.findFirst (byTagClass "div" "js-message_text") with
    | some inner => decodeContents inner
    | none => decodeContents text_content

/-- The pre-suffix title of `parse_feed` (lines 144-151 of `app.py`):
the stripped text of the first bold descendant of the primary text node,
or the placeholder when either is missing. -/
def rawTitle (feed_tag : Node) : String :=
  match feed_tag.findFirst (byTagClass "div" "js-message_text") with
  | none => "..."
  | some text_content =>
    match text_content.findFirst (byTag "b") with
    | none => "..."
    | some title => pyStrip (textOf title)

/-- The image loop of `parse_feed` (lines 152-155 of `app.py`): append
each photo-wrap's extracted image to the body, newline-separated,
propagating any exception from `parse_image`. -/
def addImages (description : String) : List Node → Except PyErr String
  | [] => .ok description
  | image :: rest =>
    match parse_image image with
    | .error e => .error e
    | .ok image_text => addImages (description ++ "\n" ++ image_text) rest

/-- The reply step of `parse_feed` (lines 157-164 of `app.py`): prepend
the parsed reply block when a reply widget is present. -/
def addReply (feed_tag : Node) (description : String) : Except PyErr String :=
  match feed_tag.findFirst (byTagClass "a" "tgme_widget_message_reply") with
  | none => .ok description
  | some reply =>
    match parse_reply reply with
    | .error e => .error e
    | .ok reply_text => .ok (reply_text ++ "\n" ++ description)

/-- The fixed video-notice sentence of `parse_feed` (lines 168-171). -/
def videoNotice : String :=
  "\n<p><b>The message contain video, for watch it please visit the channel.</b></p>"

/-- The video step of `parse_feed` (lines 166-171 of `app.py`): append
the fixed notice when a video wrapper is present. -/
def addVideo (feed_tag : Node) (description : String) : String :=
  if (feed_tag.findFirst (byTagClass "div" "tgme_widget_message_video_wrap")).isSome then
    description ++ videoNotice
  else description

/-- The preview step of `parse_feed` (lines 173-177 of `app.py`): append
the parsed preview block when a link-preview anchor is present. -/
def addPreview (feed_tag : Node) (description : String) : Except PyErr String :=
  match feed_tag.findFirst (byTagClass "a" "tgme_widget_message_link_preview") with
  | none => .ok description
  | some preview =>
    match parse_preview preview with
    | .error e => .error e
    | .ok preview_text => .ok (description ++ "\n" ++ preview_text)

/-- The author lookup of `parse_feed` (lines 179-181 of `app.py`):
prefer the forwarded-from author span, else the owner-name anchor. -/
def getAuthorTag (feed_tag : Node) : Option Node :=
  match feed_tag.findFirst (byTagClass "span" "tgme_widget_message_from_author") with
  | some author => some author
  | none => feed_tag.findFirst (byTagClass "a" "tgme_widget_message_owner_name")

/-- Embeds `parse_feed` from `app.py`, preserving Python's evaluation
order: body assembly first, then (inside the `Feed(...)` call) the time
node's `datetime` attribute (`TypeError` when the node is absent,
`KeyError` when the attribute is), the date anchor's `href` likewise,
and finally `author.text` (`AttributeError` when both lookups failed). -/
def parse_feed (feed_tag : Node) : Except PyErr Feed :=
  match addImages (bodySeed feed_tag)
      (feed_tag.findAllDesc (byTagClass "a" "tgme_widget_message_photo_wrap")) with
  | .error e => .error e
  | .ok d1 =>
    match addReply feed_tag d1 with
    | .error e => .error e
    | .ok d2 =>
      match addPreview feed_tag (addVideo feed_tag d2) with
      | .error e => .error e
      | .ok d4 =>
        match feed_tag.findFirst (byTagClass "time" "time") with
        | none => .error .typeError
        | some timeTag =>
          match getAttr timeTag "datetime" with
          | none => .error (.keyError "datetime")
          | some pub_date =>
            match feed_tag.findFirst (byTagClass "a" "tgme_widget_message_date") with
            | none => .error .typeError
            | some dateTag =>
              match getAttr dateTag "href" with
              | none => .error (.keyError "href")
              | some link =>
                match getAuthorTag feed_tag with
                | none => .error .attributeError
                | some authorTag =>
                  .ok ⟨rawTitle feed_tag ++ "...", d4, pub_date, link, textOf authorTag⟩

/-- Embeds the loop body of `parse_feeds`: parse each container in
order, appending the results (an exception aborts the whole loop). -/
def feedsFrom : List Node → Except PyErr (List Feed)
  | [] => .ok []
  | feed_tag :: rest =>
    match parse_feed feed_tag with
    | .error e => .error e
    | .ok f =>
      match feedsFrom rest with
      | .error e => .error e
      | .ok fs => .ok (f :: fs)

/-- Embeds `parse_feeds` from `app.py`: run `parse_feed` on every
`tgme_widget_message_wrap` container of the page, in document order. -/
def parse_feeds (soup : Node) : Except PyErr (List Feed) :=
  feedsFrom (soup.findAllDesc (byTagClass "div" "tgme_widget_message_wrap"))

/-- Embeds `url.replace('t.me/s/', 't.me/')` from `parse_rss`: Python
`str.replace` at this concrete pattern, i.e. a single left-to-right scan
replacing every non-overlapping occurrence of `t.me/s/` by `t.me/`. -/
def replaceTmeS : List Char → List Char
  | 't' :: '.' :: 'm' :: 'e' :: '/' :: 's' :: '/' :: rest =>
    "t.me/".toList ++ replaceTmeS rest
  | c :: rest => c :: replaceTmeS rest
  | [] => []

/-- Whether the substring `t.me/s/` occurs in a character list. -/
def containsTmeS : List Char → Bool
  | 't' :: '.' :: 'm' :: 'e' :: '/' :: 's' :: '/' :: _ => true
  | _ :: rest => containsTmeS rest
  | [] => false

/-- Embeds `parse_rss` from `app.py`, with the formatted wall-clock
string passed explicitly as `now` (the only non-input-determined value):
read the two OpenGraph meta tags (`TypeError` when `find` returned
`None`, `KeyError` when `content` is absent), rewrite the fetch URL, and
assemble the `Rss` record. -/
def parse_rss (soup : Node) (url : String) (feeds : List Feed) (now : String) :
    Except PyErr Rss :=
  match soup.findFirst (byTagAttr "meta" "property" "og:title") with
  | none => .error .typeError
  | some titleTag =>
    match getAttr titleTag "content" with
    | none => .error (.keyError "content")
    | some title =>
      match soup.findFirst (byTagAttr "meta" "property" "og:description") with
      | none => .error .typeError
      | some descTag =>
        match getAttr descTag "content" with
        | none => .error (.keyError "content")
        | some description =>
          .ok ⟨title, description, String.mk (replaceTmeS url.toList), now, feeds⟩

/-- Modelled from the spec: the feed-serialization template (`rss.j2`,
not part of `src/`) is a fixed template keyed by the five `Rss` fields
and the `Feed` field set; one item rendering, deterministic in the
post's fields. -/
def renderItem (f : Feed) : String :=
  "<item><title>" ++ f.title ++ "</title><description>" ++ f.description
    ++ "</description><pubDate>" ++ f.pub_date ++ "</pubDate><link>" ++ f.link
    ++ "</link><author>" ++ f.author ++ "</author></item>"

/-- Concatenate the rendered items of a feed list. -/
def renderItems : List Feed → String
  | [] => ""
  | f :: rest => renderItem f ++ renderItems rest

/-- Modelled from the spec: `render_rss` from `app.py` renders the
cached template on the `Rss` record; the template itself (`rss.j2`) is
not part of `src/`, so its output is modelled as a fixed deterministic
serialization of the five `Rss` fields (§4.4 and the §6 template
contract). -/
def render_rss (rss : Rss) : String :=
  "<channel><title>" ++ rss.title ++ "</title><description>" ++ rss.description
    ++ "</description><link>" ++ rss.link ++ "</link><lastBuildDate>"
    ++ rss.last_build_date ++ "</lastBuildDate>" ++ renderItems rss.feeds
    ++ "</channel>"

/-- Embeds the pure tail of `get_rss_feed` from `app.py` (everything
after the fetch and the external markup parse): extract the posts,
assemble the `Rss` record, and render it; `now` is the formatted
wall-clock string read inside `parse_rss`. -/
def get_rss_feed (soup : Node) (url : String) (now : String) : Except PyErr String :=
  match parse_feeds soup with
  | .error e => .error e
  | .ok feeds =>
    match parse_rss soup url feeds now with
    | .error e => .error e
    | .ok rss => .ok (render_rss rss)

/-! ## Helper lemmas -/

/-- Run `parse_image` on a list of nodes, collecting the results
(first exception aborts), for stating the image part of the body. -/
def mapParseImage : List Node → Except PyErr (List String)
  | [] => .ok []
  | image :: rest =>
    match parse_image image with
    | .error e => .error e
    | .ok t =>
      match mapParseImage rest with
      | .error e => .error e
      | .ok ts => .ok (t :: ts)

/-- Concatenate extracted image tags, each preceded by the newline
separator used by the image loop of `parse_feed`. -/
def imgsConcat : List String → String
  | [] => ""
  | t :: rest => "\n" ++ t ++ imgsConcat rest

theorem addImages_ok {l : List Node} {d v : String} (h : addImages d l = .ok v) :
    ∃ ts, mapParseImage l = .ok ts ∧ v = d ++ imgsConcat ts := by
  induction l generalizing d with
  | nil =>
    refine ⟨[], rfl, ?_⟩
    simp only [addImages] at h
    injection h with h
    rw [← h, imgsConcat, String.append_empty]
  | cons i rest ih =>
    simp only [addImages] at h
    cases hi : parse_image i with
    | error e => rw [hi] at h; exact Except.noConfusion h
    | ok t =>
      rw [hi] at h
      obtain ⟨ts, hts, hv⟩ := ih h
      refine ⟨t :: ts, ?_, ?_⟩
      · simp only [mapParseImage, hi, hts]
      · rw [hv, imgsConcat]
        apply String.ext
        simp [String.data_append, List.append_assoc]

theorem addImages_err {l : List Node} {image : Node} (hm : image ∈ l)
    {e : PyErr} (he : parse_image image = .error e) (d : String) :
    ∃ e', addImages d l = .error e' := by
  induction l generalizing d with
  | nil => cases hm
  | cons i rest ih =>
    simp only [addImages]
    rcases List.mem_cons.mp hm with h | h
    · subst h
      rw [he]
      exact ⟨e, rfl⟩
    · cases hi : parse_image i with
      | error e0 => exact ⟨e0, rfl⟩
      | ok t => exact ih h _

theorem parse_feed_ok_parts {ft : Node} {f : Feed} (h : parse_feed ft = .ok f) :
    ∃ d1 d2 t a auth,
      addImages (bodySeed ft)
          (ft.findAllDesc (byTagClass "a" "tgme_widget_message_photo_wrap")) = .ok d1
      ∧ addReply ft d1 = .ok d2
      ∧ addPreview ft (addVideo ft d2) = .ok f.description
      ∧ ft.findFirst (byTagClass "time" "time") = some t
      ∧ getAttr t "datetime" = some f.pub_date
      ∧ ft.findFirst (byTagClass "a" "tgme_widget_message_date") = some a
      ∧ getAttr a "href" = some f.link
      ∧ getAuthorTag ft = some auth
      ∧ f.author = textOf auth
      ∧ f.title = rawTitle ft ++ "..." := by
  unfold parse_feed at h
  cases h1 : addImages (bodySeed ft)
      (ft.findAllDesc (byTagClass "a" "tgme_widget_message_photo_wrap")) with
  | error e => simp [h1] at h
  | ok d1 =>
    simp only [h1] at h
    cases h2 : addReply ft d1 with
    | error e => simp [h2] at h
    | ok d2 =>
      simp only [h2] at h
      cases h3 : addPreview ft (addVideo ft d2) with
      | error e => simp [h3] at h
      | ok d4 =>
        simp only [h3] at h
        cases h4 : ft.findFirst (byTagClass "time" "time") with
        | none => simp [h4] at h
        | some t =>
          simp only [h4] at h
          cases h5 : getAttr t "datetime" with
          | none => simp [h5] at h
          | some dt =>
            simp only [h5] at h
            cases h6 : ft.findFirst (byTagClass "a" "tgme_widget_message_date") with
            | none => simp [h6] at h
            | some a =>
              simp only [h6] at h
              cases h7 : getAttr a "href" with
              | none => simp [h7] at h
              | some link =>
                simp only [h7] at h
                cases h8 : getAuthorTag ft with
                | none => simp [h8] at h
                | some auth =>
                  simp only [h8] at h
                  injection h with h
                  subst h
                  exact ⟨d1, d2, t, a, auth, rfl, h2, h3, rfl, h5, rfl, h7, rfl, rfl, rfl⟩

theorem parse_rss_ok_parts {soup : Node} {url now : String} {feeds : List Feed}
    {rss : Rss} (h : parse_rss soup url feeds now = .ok rss) :
    rss.link = String.mk (replaceTmeS url.toList)
      ∧ rss.last_build_date = now
      ∧ rss.feeds = feeds
      ∧ ∃ t1 t2,
          soup.findFirst (byTagAttr "meta" "property" "og:title") = some t1
          ∧ getAttr t1 "content" = some rss.title
          ∧ soup.findFirst (byTagAttr "meta" "property" "og:description") = some t2
          ∧ getAttr t2 "content" = some rss.description := by
  unfold parse_rss at h
  cases h1 : soup.findFirst (byTagAttr "meta" "property" "og:title") with
  | none => simp [h1] at h
  | some t1 =>
    simp only [h1] at h
    cases h2 : getAttr t1 "content" with
    | none => simp [h2] at h
    | some title =>
      simp only [h2] at h
      cases h3 : soup.findFirst (byTagAttr "meta" "property" "og:description") with
      | none => simp [h3] at h
      | some t2 =>
        simp only [h3] at h
        cases h4 : getAttr t2 "content" with
        | none => simp [h4] at h
        | some descr =>
          simp only [h4] at h
          injection h with h
          subst h
          exact ⟨rfl, rfl, rfl, t1, t2, rfl, h2, rfl, h4⟩

/-! ## Concrete input helpers -/

/-- Element constructor taking a plain list of children. -/
def elemN (tag : String) (attrs : List (String × String)) (children : List Node) : Node :=
  .elem tag attrs (nodesOf children)

/-- Text node constructor. -/
def textN (s : String) : Node := .text s

/-! ## Claim C3 -/

/-- C3: for every node whose `style` attribute is present but whose
value does not match the `url('...')` pattern, `parse_image` returns
the empty string and does not raise — the empty string is its only
failure signal on malformed style values. -/
theorem parse_image_unmatched_style_ok_empty {image : Node} {style : String}
    (hs : getAttr image "style" = some style)
    (hm : searchUrl style.toList = none) :
    parse_image image = .ok "" := by
  unfold parse_image
  rw [hs]
  simp only [hm]

def w3Node : Node :=
  elemN "i" [("class", "link_preview_image"), ("style", "color: red")] []

/-- Witness for C3 at a concrete malformed style value. -/
theorem parse_image_unmatched_style_ok_empty_witness :
    parse_image w3Node = .ok "" :=
  @parse_image_unmatched_style_ok_empty w3Node "color: red" rfl rfl

/-! ## Claim C5 -/

/-- C5: for every reply widget whose author-name span and quoted-text
div are both present, the reply extractor succeeds and its output
contains the author's name wrapped in a bold tag inside an anchor to the
reply's own `href`, followed (later in the string) by the quoted text. -/
theorem parse_reply_author_link_text_order {reply authorTag textTag : Node}
    {href : String}
    (ha : reply.findFirst (byTagClass "span" "tgme_widget_message_author_name")
        = some authorTag)
    (ht : reply.findFirst (byTagClass "div" "js-message_reply_text") = some textTag)
    (hh : getAttr reply "href" = some href) :
    ∃ s1 s2 s3,
      parse_reply reply =
        .ok (s1 ++ ("<a href=\"" ++ href ++ "\"><b>" ++ decodeContents authorTag
              ++ "</b>:</a>") ++ s2 ++ decodeContents textTag ++ s3) := by
  refine ⟨"<div class=\"rsshub-quote\">\n        <blockquote>\n            <p>",
    "</p>\n            <p>", "</p>\n        </blockquote>\n    </div>", ?_⟩
  unfold parse_reply
  simp only [ha, ht, hh]
  congr 1
  unfold replyFormat
  apply String.ext
  simp [String.data_append, List.append_assoc]

def w5Reply : Node :=
  elemN "a" [("class", "tgme_widget_message_reply"), ("href", "https://t.me/chan/9")] [
    elemN "span" [("class", "tgme_widget_message_author_name")] [textN "Alice"],
    elemN "div" [("class", "tgme_widget_message_reply_text js-message_reply_text")]
      [textN "quoted words"]]

/-- Witness for C5 at a concrete well-formed reply widget. -/
theorem parse_reply_author_link_text_order_witness :
    ∃ s1 s2 s3,
      parse_reply w5Reply =
        .ok (s1 ++ ("<a href=\"" ++ "https://t.me/chan/9" ++ "\"><b>" ++ "Alice"
              ++ "</b>:</a>") ++ s2 ++ "quoted words" ++ s3) :=
  @parse_reply_author_link_text_order w5Reply
    (elemN "span" [("class", "tgme_widget_message_author_name")] [textN "Alice"])
    (elemN "div" [("class", "tgme_widget_message_reply_text js-message_reply_text")]
      [textN "quoted words"])
    "https://t.me/chan/9" rfl rfl rfl

/-! ## Claim C10 -/

theorem parse_image_missing_style_raises {image : Node}
    (h : getAttr image "style" = none) :
    parse_image image = .error (PyErr.keyError "style") := by
  unfold parse_image
  rw [h]

/-- C10: `parse_image` is total exactly on nodes carrying a `style`
attribute; on a node without one it raises `KeyError` instead of
returning the empty string, and such a node sitting in a post (as a
photo-wrap anchor, or as the image of the post's link preview) makes
`parse_feed` raise, aborting extraction of the whole post. -/
theorem parse_image_style_conditional_totality :
    (∀ image style, getAttr image "style" = some style →
        ∃ out, parse_image image = .ok out)
    ∧ (∀ image, getAttr image "style" = none →
        parse_image image = .error (PyErr.keyError "style"))
    ∧ (∀ ft image,
        image ∈ ft.findAllDesc (byTagClass "a" "tgme_widget_message_photo_wrap") →
        getAttr image "style" = none →
        ∃ e, parse_feed ft = .error e)
    ∧ (∀ ft p image,
        ft.findFirst (byTagClass "a" "tgme_widget_message_link_preview") = some p →
        p.findFirst (byTagClass "i" "link_preview_image") = some image →
        getAttr image "style" = none →
        ∃ e, parse_feed ft = .error e) := by
  refine ⟨?_, ?_, ?_, ?_⟩
  · intro image style hs
    unfold parse_image
    simp only [hs]
    cases hm : searchUrl style.toList with
    | none => exact ⟨"", rfl⟩
    | some link => exact ⟨_, rfl⟩
  · intro image h
    exact parse_image_missing_style_raises h
  · intro ft image hm hstyle
    obtain ⟨e', h'⟩ :=
      addImages_err hm (parse_image_missing_style_raises hstyle) (bodySeed ft)
    refine ⟨e', ?_⟩
    unfold parse_feed
    simp only [h']
  · intro ft p image hp hi hstyle
    have hpp : parse_preview p = .error PyErr.attributeError
        ∨ parse_preview p = .error (PyErr.keyError "style") := by
      unfold parse_preview
      cases hsite : p.findFirst (byTagClass "div" "link_preview_site_name") with
      | none => exact Or.inl rfl
      | some siteTag =>
        right
        simp only [hi, parse_image_missing_style_raises hstyle]
    have hprev : ∃ e, ∀ d, addPreview ft d = .error e := by
      rcases hpp with hpe | hpe
      · exact ⟨PyErr.attributeError, fun d => by unfold addPreview; simp only [hp, hpe]⟩
      · exact ⟨PyErr.keyError "style", fun d => by unfold addPreview; simp only [hp, hpe]⟩
    obtain ⟨e, hpe⟩ := hprev
    cases haddI : addImages (bodySeed ft)
        (ft.findAllDesc (byTagClass "a" "tgme_widget_message_photo_wrap")) with
    | error e0 => exact ⟨e0, by unfold parse_feed; simp only [haddI]⟩
    | ok d1 =>
      cases haddR : addReply ft d1 with
      | error e0 => exact ⟨e0, by unfold parse_feed; simp only [haddI, haddR]⟩
      | ok d2 =>
        exact ⟨e, by unfold parse_feed; simp only [haddI, haddR, hpe]⟩

def w10Styled : Node :=
  elemN "a" [("class", "tgme_widget_message_photo_wrap"),
    ("style", "background-image:url(\x27https://img.example/1.jpg\x27)")] []

def w10Bare : Node :=
  elemN "a" [("class", "tgme_widget_message_photo_wrap")] []

def w10Post : Node :=
  elemN "div" [("class", "tgme_widget_message_wrap")] [w10Bare]

def w10PrevImage : Node :=
  elemN "i" [("class", "link_preview_image")] []

def w10Preview : Node :=
  elemN "a" [("class", "tgme_widget_message_link_preview"),
    ("href", "https://site.example")] [
    elemN "div" [("class", "link_preview_site_name")] [textN "Site"],
    w10PrevImage]

def w10PostPrev : Node :=
  elemN "div" [("class", "tgme_widget_message_wrap")] [w10Preview]

/-- Witness for C10 at concrete nodes with and without a `style`
attribute, and concrete posts aborted by each of the two paths. -/
theorem parse_image_style_conditional_totality_witness :
    (∃ out, parse_image w10Styled = .ok out)
    ∧ parse_image w10Bare = .error (PyErr.keyError "style")
    ∧ (∃ e, parse_feed w10Post = .error e)
    ∧ (∃ e, parse_feed w10PostPrev = .error e) :=
  ⟨parse_image_style_conditional_totality.1 w10Styled
      "background-image:url(\x27https://img.example/1.jpg\x27)" rfl,
   parse_image_style_conditional_totality.2.1 w10Bare rfl,
   parse_image_style_conditional_totality.2.2.1 w10Post w10Bare (by decide) rfl,
   parse_image_style_conditional_totality.2.2.2 w10PostPrev w10Preview w10PrevImage
      rfl rfl rfl⟩

/-! ## Claim C1 -/

def c1Good : Node :=
  elemN "div" [("class", "tgme_widget_message_wrap js-widget_message_wrap")] [
    elemN "div" [("class", "tgme_widget_message_text js-message_text")] [
      elemN "b" [] [textN " Breaking News "], textN " rest of text"],
    elemN "time" [("class", "time"), ("datetime", "2024-01-02T03:04:05+00:00")]
      [textN "3:04"],
    elemN "a" [("class", "tgme_widget_message_date"), ("href", "https://t.me/chan/42")] [],
    elemN "a" [("class", "tgme_widget_message_owner_name")] [textN "Chan Owner"]]

def c1GoodFeed : Feed :=
  ⟨"Breaking News...", "<b> Breaking News </b> rest of text",
   "2024-01-02T03:04:05+00:00", "https://t.me/chan/42", "Chan Owner"⟩

def c1Bad : Node :=
  elemN "div" [("class", "tgme_widget_message_wrap")] [
    elemN "div" [("class", "tgme_widget_message_text js-message_text")]
      [textN "no timestamp"],
    elemN "a" [("class", "tgme_widget_message_date"), ("href", "https://t.me/chan/7")] [],
    elemN "a" [("class", "tgme_widget_message_owner_name")] [textN "Owner"]]

def c1Page : Node :=
  elemN "html" [] [elemN "body" [] [c1Good, c1Bad]]

/-- C1 counterexample: on a concrete post container lacking the time
node, `parse_feed` raises `TypeError` (Python subscripts the `None`
returned by `find`) instead of emitting a skip signal, and on a page
holding one well-formed container and that bad container, `parse_feeds`
propagates the exception and produces no post list at all — the bad
container is not silently excluded. -/
theorem parse_feed_no_skip_counterexample :
    parse_feed c1Bad = .error PyErr.typeError
      ∧ parse_feeds c1Page = .error PyErr.typeError :=
  ⟨rfl, rfl⟩

/-- C1 (amended): a container missing either the time node's `datetime`
attribute or the date anchor's `href` never yields a Post (partial or
otherwise) — equivalently, every successfully parsed Post carries both,
copied into `pub_date` and `link`; on such containers `parse_feed`
raises rather than skipping, and `parse_feeds` propagates the
exception. -/
theorem parse_feed_ok_requires_time_and_date_href {ft : Node} {f : Feed}
    (h : parse_feed ft = .ok f) :
    ∃ t a, ft.findFirst (byTagClass "time" "time") = some t
      ∧ getAttr t "datetime" = some f.pub_date
      ∧ ft.findFirst (byTagClass "a" "tgme_widget_message_date") = some a
      ∧ getAttr a "href" = some f.link := by
  obtain ⟨d1, d2, t, a, auth, _, _, _, h4, h5, h6, h7, _, _, _⟩ := parse_feed_ok_parts h
  exact ⟨t, a, h4, h5, h6, h7⟩

/-- Witness for the amended C1 at a concrete well-formed container. -/
theorem parse_feed_ok_requires_time_and_date_href_witness :
    ∃ t a, c1Good.findFirst (byTagClass "time" "time") = some t
      ∧ getAttr t "datetime" = some c1GoodFeed.pub_date
      ∧ c1Good.findFirst (byTagClass "a" "tgme_widget_message_date") = some a
      ∧ getAttr a "href" = some c1GoodFeed.link :=
  @parse_feed_ok_requires_time_and_date_href c1Good c1GoodFeed rfl

/-! ## Claim C2 -/

/-- C2: the extracted title is the stripped text of the first bold
descendant of the primary text node when both exist and the placeholder
otherwise, the ellipsis suffix is appended to whichever value was
chosen (so the placeholder becomes six dots), and no truncation or
length test is applied to the source text. -/
theorem parse_feed_title_rule {ft : Node} {f : Feed} (h : parse_feed ft = .ok f) :
    f.title =
      (match ft.findFirst (byTagClass "div" "js-message_text") with
       | none => "..."
       | some text_content =>
         match text_content.findFirst (byTag "b") with
         | none => "..."
         | some b => pyStrip (textOf b)) ++ "..."
      ∧ ("..." ++ "..." : String) = "......" := by
  obtain ⟨d1, d2, t, a, auth, _, _, _, _, _, _, _, _, _, htitle⟩ := parse_feed_ok_parts h
  exact ⟨by rw [htitle]; rfl, rfl⟩

def w2Bold : Node :=
  elemN "b" [] [textN ("  A headline far longer than the eighty characters the "
    ++ "unused TITLE_LENGTH constant suggests, kept in full  ")]

def w2Post : Node :=
  elemN "div" [("class", "tgme_widget_message_wrap")] [
    elemN "div" [("class", "tgme_widget_message_text js-message_text")]
      [w2Bold, textN " body"],
    elemN "time" [("class", "time"), ("datetime", "2024-03-04T05:06:07+00:00")] [],
    elemN "a" [("class", "tgme_widget_message_date"), ("href", "https://t.me/chan/50")] [],
    elemN "a" [("class", "tgme_widget_message_owner_name")] [textN "Owner"]]

def w2Feed : Feed :=
  ⟨"A headline far longer than the eighty characters the unused "
      ++ "TITLE_LENGTH constant suggests, kept in full...",
   "<b>  A headline far longer than the eighty characters the unused "
      ++ "TITLE_LENGTH constant suggests, kept in full  </b> body",
   "2024-03-04T05:06:07+00:00", "https://t.me/chan/50", "Owner"⟩

/-- Witness for C2 at a concrete post whose bold run is far longer than
the unused 80-character constant. -/
theorem parse_feed_title_rule_witness :
    w2Feed.title = pyStrip (textOf w2Bold) ++ "..."
      ∧ ("..." ++ "..." : String) = "......" :=
  @parse_feed_title_rule w2Post w2Feed rfl

/-! ## Claim C6 -/

/-- C6: the extracted author is the plain text of the forwarded-from
author span when that span is present, and otherwise the plain text of
the channel-owner name anchor. -/
theorem parse_feed_author_fallback {ft : Node} {f : Feed}
    (h : parse_feed ft = .ok f) :
    (∀ a, ft.findFirst (byTagClass "span" "tgme_widget_message_from_author") = some a →
        f.author = textOf a)
    ∧ (ft.findFirst (byTagClass "span" "tgme_widget_message_from_author") = none →
        ∀ b, ft.findFirst (byTagClass "a" "tgme_widget_message_owner_name") = some b →
          f.author = textOf b) := by
  obtain ⟨d1, d2, t, a0, auth, _, _, _, _, _, _, _, h8, h9, _⟩ := parse_feed_ok_parts h
  constructor
  · intro a ha
    unfold getAuthorTag at h8
    simp only [ha] at h8
    injection h8 with h8
    rw [h9, ← h8]
  · intro hnone b hb
    unfold getAuthorTag at h8
    simp only [hnone, hb] at h8
    injection h8 with h8
    rw [h9, ← h8]

def w6Span : Node :=
  elemN "span" [("class", "tgme_widget_message_from_author")] [textN "Forwarded Guy"]

def w6Post : Node :=
  elemN "div" [("class", "tgme_widget_message_wrap")] [
    elemN "div" [("class", "tgme_widget_message_forwarded_from")] [w6Span],
    elemN "time" [("class", "time"), ("datetime", "2024-05-06T07:08:09+00:00")] [],
    elemN "a" [("class", "tgme_widget_message_date"), ("href", "https://t.me/chan/60")] [],
    elemN "a" [("class", "tgme_widget_message_owner_name")] [textN "Owner"]]

def w6Feed : Feed :=
  ⟨"......", "", "2024-05-06T07:08:09+00:00", "https://t.me/chan/60", "Forwarded Guy"⟩

/-- Witness for C6 at a concrete post carrying a forwarded-from span
(which wins over the also-present owner anchor). -/
theorem parse_feed_author_fallback_witness :
    w6Feed.author = textOf w6Span :=
  (@parse_feed_author_fallback w6Post w6Feed rfl).1 w6Span rfl

/-! ## Claim C9 -/

/-- C9: with no images, reply, video or preview present, the body is
exactly the seed: the contents of the nested `js-message_text` div when
one exists inside the primary text node, else the contents of the
primary text node, else the empty string. -/
theorem parse_feed_body_seed_rule {ft : Node} {f : Feed}
    (h : parse_feed ft = .ok f)
    (himg : ft.findAllDesc (byTagClass "a" "tgme_widget_message_photo_wrap") = [])
    (hrep : ft.findFirst (byTagClass "a" "tgme_widget_message_reply") = none)
    (hvid : ft.findFirst (byTagClass "div" "tgme_widget_message_video_wrap") = none)
    (hpre : ft.findFirst (byTagClass "a" "tgme_widget_message_link_preview") = none) :
    f.description =
      match ft.findFirst (byTagClass "div" "js-message_text") with
      | none => ""
      | some text_content =>
        match text_content.findFirst (byTagClass "div" "js-message_text") with
        | some inner => decodeContents inner
        | none => decodeContents text_content := by
  obtain ⟨d1, d2, t, a, auth, h1, h2, h3, _, _, _, _, _, _, _⟩ := parse_feed_ok_parts h
  rw [himg] at h1
  simp only [addImages] at h1
  injection h1 with h1
  simp only [addReply, hrep] at h2
  injection h2 with h2
  have hv : addVideo ft d2 = d2 := by simp [addVideo, hvid]
  rw [hv] at h3
  simp only [addPreview, hpre] at h3
  injection h3 with h3
  rw [← h3, ← h2, ← h1]
  rfl

def w9Inner : Node :=
  elemN "div" [("class", "tgme_widget_message_text js-message_text")]
    [textN "inner text", elemN "b" [] [textN "T"]]

def w9Post : Node :=
  elemN "div" [("class", "tgme_widget_message_wrap")] [
    elemN "div" [("class", "tgme_widget_message_text js-message_text")] [w9Inner],
    elemN "time" [("class", "time"), ("datetime", "2024-07-08T09:10:11+00:00")] [],
    elemN "a" [("class", "tgme_widget_message_date"), ("href", "https://t.me/chan/70")] [],
    elemN "a" [("class", "tgme_widget_message_owner_name")] [textN "Owner"]]

def w9Feed : Feed :=
  ⟨"T...", "inner text<b>T</b>",
   "2024-07-08T09:10:11+00:00", "https://t.me/chan/70", "Owner"⟩

/-- Witness for C9 at a concrete post with the nested wrapping pattern:
the body is the nested div's contents, not the outer div's. -/
theorem parse_feed_body_seed_rule_witness :
    w9Feed.description = decodeContents w9Inner :=
  @parse_feed_body_seed_rule w9Post w9Feed rfl rfl rfl rfl rfl

/-! ## Claim C4 -/

theorem strEmptyAppend (s : String) : "" ++ s = s := rfl

/-- C4: the assembled body is, in this fixed order: the quoted-reply
block when a reply widget is present, then the primary text followed by
the extracted inline images, then the fixed video-notice sentence when a
video wrapper is present, then the link-preview block when a preview
anchor is present. -/
theorem parse_feed_body_order {ft : Node} {f : Feed} (h : parse_feed ft = .ok f) :
    ∃ replyBlock imgTexts videoBlock previewBlock,
      f.description =
        replyBlock ++ (bodySeed ft ++ imgsConcat imgTexts) ++ videoBlock ++ previewBlock
      ∧ mapParseImage (ft.findAllDesc (byTagClass "a" "tgme_widget_message_photo_wrap"))
          = .ok imgTexts
      ∧ (match ft.findFirst (byTagClass "a" "tgme_widget_message_reply") with
         | none => replyBlock = ""
         | some r => ∃ rt, parse_reply r = .ok rt ∧ replyBlock = rt ++ "\n")
      ∧ videoBlock =
          (if (ft.findFirst (byTagClass "div" "tgme_widget_message_video_wrap")).isSome
           then videoNotice else "")
      ∧ (match ft.findFirst (byTagClass "a" "tgme_widget_message_link_preview") with
         | none => previewBlock = ""
         | some p => ∃ pt, parse_preview p = .ok pt ∧ previewBlock = "\n" ++ pt) := by
  obtain ⟨d1, d2, t, a, auth, h1, h2, h3, _, _, _, _, _, _, _⟩ := parse_feed_ok_parts h
  obtain ⟨ts, hts, hd1⟩ := addImages_ok h1
  have hR : ∃ rb, d2 = rb ++ d1 ∧
      (match ft.findFirst (byTagClass "a" "tgme_widget_message_reply") with
       | none => rb = ""
       | some r => ∃ rt, parse_reply r = .ok rt ∧ rb = rt ++ "\n") := by
    cases hr : ft.findFirst (byTagClass "a" "tgme_widget_message_reply") with
    | none =>
      simp only [addReply, hr] at h2
      injection h2 with h2
      exact ⟨"", by rw [← h2]; exact (strEmptyAppend d1).symm, rfl⟩
    | some r =>
      simp only [addReply, hr] at h2
      cases hpr : parse_reply r with
      | error e => simp only [hpr] at h2; exact Except.noConfusion h2
      | ok rt =>
        simp only [hpr] at h2
        injection h2 with h2
        exact ⟨rt ++ "\n", by rw [← h2], rt, hpr, rfl⟩
  obtain ⟨rb, hrb, hrbcond⟩ := hR
  have hV : ∃ vb, addVideo ft d2 = d2 ++ vb ∧ vb =
      (if (ft.findFirst (byTagClass "div" "tgme_widget_message_video_wrap")).isSome
       then videoNotice else "") := by
    unfold addVideo
    cases hv : (ft.findFirst (byTagClass "div" "tgme_widget_message_video_wrap")).isSome with
    | true => exact ⟨videoNotice, rfl, rfl⟩
    | false => exact ⟨"", (String.append_empty d2).symm, rfl⟩
  obtain ⟨vb, hvb, hvbcond⟩ := hV
  rw [hvb] at h3
  have hP : ∃ pb, f.description = (d2 ++ vb) ++ pb ∧
      (match ft.findFirst (byTagClass "a" "tgme_widget_message_link_preview") with
       | none => pb = ""
       | some p => ∃ pt, parse_preview p = .ok pt ∧ pb = "\n" ++ pt) := by
    cases hp : ft.findFirst (byTagClass "a" "tgme_widget_message_link_preview") with
    | none =>
      simp only [addPreview, hp] at h3
      injection h3 with h3
      exact ⟨"", by rw [← h3, String.append_empty], rfl⟩
    | some p =>
      simp only [addPreview, hp] at h3
      cases hpp : parse_preview p with
      | error e => simp only [hpp] at h3; exact Except.noConfusion h3
      | ok pt =>
        simp only [hpp] at h3
        injection h3 with h3
        exact ⟨"\n" ++ pt, by rw [← h3, String.append_assoc], pt, hpp, rfl⟩
  obtain ⟨pb, hpb, hpbcond⟩ := hP
  refine ⟨rb, ts, vb, pb, ?_, hts, hrbcond, hvbcond, hpbcond⟩
  rw [hpb, hrb, hd1]

def w4Reply : Node :=
  elemN "a" [("class", "tgme_widget_message_reply"), ("href", "https://t.me/chan/5")] [
    elemN "span" [("class", "tgme_widget_message_author_name")] [textN "Bob"],
    elemN "div" [("class", "js-message_reply_text")] [textN "earlier message"]]

def w4Preview : Node :=
  elemN "a" [("class", "tgme_widget_message_link_preview"),
    ("href", "https://news.example/a")] [
    elemN "div" [("class", "link_preview_site_name")] [textN "News"],
    elemN "div" [("class", "link_preview_title")] [textN "An article"],
    elemN "div" [("class", "link_preview_description")] [textN "Details."]]

def w4Photo : Node :=
  elemN "a" [("class", "tgme_widget_message_photo_wrap"),
    ("style", "background-image:url(\x27https://img.example/p.jpg\x27)")] []

def w4Post : Node :=
  elemN "div" [("class", "tgme_widget_message_wrap")] [
    w4Reply,
    elemN "div" [("class", "tgme_widget_message_text js-message_text")] [textN "main text"],
    w4Photo,
    elemN "div" [("class", "tgme_widget_message_video_wrap")] [],
    w4Preview,
    elemN "time" [("class", "time"), ("datetime", "2024-09-10T11:12:13+00:00")] [],
    elemN "a" [("class", "tgme_widget_message_date"), ("href", "https://t.me/chan/80")] [],
    elemN "a" [("class", "tgme_widget_message_owner_name")] [textN "Owner"]]

def w4Feed : Feed :=
  ⟨"......",
   replyFormat "https://t.me/chan/5" "Bob" "earlier message" ++ "\n"
     ++ "main text"
     ++ "\n<img src=\"https://img.example/p.jpg\" referrerpolicy=\"no-referrer\">"
     ++ videoNotice
     ++ "\n" ++ previewFormat "News" "<a href=\"https://news.example/a\">An article</a>"
          "<p>Details.</p>" "",
   "2024-09-10T11:12:13+00:00", "https://t.me/chan/80", "Owner"⟩

/-- Witness for C4 at a concrete post holding a reply widget, primary
text, one photo wrap, a video wrapper and a link preview at once. -/
theorem parse_feed_body_order_witness :
    ∃ replyBlock imgTexts videoBlock previewBlock,
      w4Feed.description =
        replyBlock ++ (bodySeed w4Post ++ imgsConcat imgTexts) ++ videoBlock ++ previewBlock
      ∧ mapParseImage (w4Post.findAllDesc (byTagClass "a" "tgme_widget_message_photo_wrap"))
          = .ok imgTexts
      ∧ (∃ rt, parse_reply w4Reply = .ok rt ∧ replyBlock = rt ++ "\n")
      ∧ videoBlock = videoNotice
      ∧ (∃ pt, parse_preview w4Preview = .ok pt ∧ previewBlock = "\n" ++ pt) :=
  @parse_feed_body_order w4Post w4Feed rfl

/-! ## Claim C7 -/

theorem replaceTmeS_not_contains {l : List Char} (h : containsTmeS l = false) :
    replaceTmeS l = l := by
  induction l using replaceTmeS.induct with
  | _ => simp_all [replaceTmeS, containsTmeS]

theorem replaceTmeS_base (l : List Char) :
    replaceTmeS ("https://t.me/s/".toList ++ l)
      = "https://t.me/".toList ++ replaceTmeS l := by
  simp [replaceTmeS]

/-- C7: for a fetch URL built from the feed-view base (`https://t.me/s/`
followed by a channel identifier in which the feed-view segment does not
occur again), the Feed's canonical link is that URL with the feed-view
path segment replaced away — the human-facing channel URL; the
replacement is Python `str.replace`, i.e. every occurrence replaced in
one left-to-right pass, embedded by `replaceTmeS`. -/
theorem parse_rss_canonical_link {soup : Node} {feeds : List Feed} {now ch : String}
    {rss : Rss} (hch : containsTmeS ch.toList = false)
    (h : parse_rss soup ("https://t.me/s/" ++ ch) feeds now = .ok rss) :
    rss.link = "https://t.me/" ++ ch := by
  obtain ⟨hlink, -⟩ := parse_rss_ok_parts h
  rw [hlink]
  apply String.ext
  show replaceTmeS ("https://t.me/s/" ++ ch).toList = ("https://t.me/" ++ ch).data
  rw [show ("https://t.me/s/" ++ ch).toList = "https://t.me/s/".toList ++ ch.toList
      from String.data_append _ _,
    replaceTmeS_base, replaceTmeS_not_contains hch,
    show ("https://t.me/" ++ ch).data = "https://t.me/".toList ++ ch.toList
      from String.data_append _ _]

def w7Soup : Node :=
  elemN "html" [] [elemN "head" [] [
    elemN "meta" [("property", "og:title"), ("content", "My Channel")] [],
    elemN "meta" [("property", "og:description"), ("content", "About things")] []]]

def w7Rss : Rss :=
  ⟨"My Channel", "About things", "https://t.me/exp_fest",
   "Mon, 01 Jan 2024 00:00:00 +0000", []⟩

/-- Witness for C7 at the concrete channel identifier of the channel
list, with concrete meta tags. -/
theorem parse_rss_canonical_link_witness :
    w7Rss.link = "https://t.me/" ++ "exp_fest" :=
  @parse_rss_canonical_link w7Soup [] "Mon, 01 Jan 2024 00:00:00 +0000" "exp_fest"
    w7Rss rfl rfl

/-! ## Claim C8 -/

/-- The pure pipeline of `get_rss_feed` up to the `Rss` record: extract
the posts, then assemble the channel record, with the formatted clock
reading passed as `now`. -/
def pipelineRss (soup : Node) (url now : String) : Except PyErr Rss :=
  match parse_feeds soup with
  | .error e => .error e
  | .ok feeds => parse_rss soup url feeds now

/-- C8: two runs of the pipeline on the same parsed markup and URL agree
on every channel field and on the whole post list, whatever the two
clock readings are; the generated-timestamp field carries exactly the
clock reading of its run, the rendered documents differ only inside the
`lastBuildDate` slot (common prefix and suffix), and with a frozen clock
the rendered documents are byte-identical. -/
theorem pipeline_deterministic_modulo_clock {soup : Node} {url t1 t2 : String}
    {rss1 rss2 : Rss}
    (h1 : pipelineRss soup url t1 = .ok rss1)
    (h2 : pipelineRss soup url t2 = .ok rss2) :
    rss1.title = rss2.title
      ∧ rss1.description = rss2.description
      ∧ rss1.link = rss2.link
      ∧ rss1.feeds = rss2.feeds
      ∧ rss1.last_build_date = t1
      ∧ rss2.last_build_date = t2
      ∧ (∃ pre post, render_rss rss1 = pre ++ t1 ++ post
          ∧ render_rss rss2 = pre ++ t2 ++ post)
      ∧ (t1 = t2 → get_rss_feed soup url t1 = get_rss_feed soup url t2) := by
  unfold pipelineRss at h1 h2
  cases hf : parse_feeds soup with
  | error e => simp only [hf] at h1; exact Except.noConfusion h1
  | ok feeds =>
    simp only [hf] at h1 h2
    obtain ⟨hl1, hb1, hfs1, ta, tb, hfa, hca, hfb, hcb⟩ := parse_rss_ok_parts h1
    obtain ⟨hl2, hb2, hfs2, ta2, tb2, hfa2, hca2, hfb2, hcb2⟩ := parse_rss_ok_parts h2
    have eta : ta = ta2 := Option.some.inj (hfa.symm.trans hfa2)
    have etb : tb = tb2 := Option.some.inj (hfb.symm.trans hfb2)
    rw [← eta] at hca2
    rw [← etb] at hcb2
    have htitle : rss1.title = rss2.title :=
      Option.some.inj (hca.symm.trans hca2)
    have hdesc : rss1.description = rss2.description :=
      Option.some.inj (hcb.symm.trans hcb2)
    have hlink : rss1.link = rss2.link := by rw [hl1, hl2]
    have hfeeds : rss1.feeds = rss2.feeds := by rw [hfs1, hfs2]
    refine ⟨htitle, hdesc, hlink, hfeeds, hb1, hb2, ?_, fun he => by rw [he]⟩
    refine ⟨"<channel><title>" ++ rss1.title ++ "</title><description>"
        ++ rss1.description ++ "</description><link>" ++ rss1.link
        ++ "</link><lastBuildDate>",
      "</lastBuildDate>" ++ renderItems rss1.feeds ++ "</channel>", ?_, ?_⟩
    · unfold render_rss
      rw [hb1]
      apply String.ext
      simp [String.data_append, List.append_assoc]
    · unfold render_rss
      rw [hb2, ← htitle, ← hdesc, ← hlink, ← hfeeds]
      apply String.ext
      simp [String.data_append, List.append_assoc]

def w8Post : Node :=
  elemN "div" [("class", "tgme_widget_message_wrap")] [
    elemN "div" [("class", "tgme_widget_message_text js-message_text")] [textN "plain"],
    elemN "time" [("class", "time"), ("datetime", "D")] [],
    elemN "a" [("class", "tgme_widget_message_date"), ("href", "L")] [],
    elemN "a" [("class", "tgme_widget_message_owner_name")] [textN "O"]]

def w8Soup : Node :=
  elemN "html" [] [
    elemN "head" [] [
      elemN "meta" [("property", "og:title"), ("content", "Chan")] [],
      elemN "meta" [("property", "og:description"), ("content", "Desc")] []],
    elemN "body" [] [w8Post]]

def w8Rss1 : Rss :=
  ⟨"Chan", "Desc", "https://t.me/c8", "T1", [⟨"......", "plain", "D", "L", "O"⟩]⟩

def w8Rss2 : Rss :=
  ⟨"Chan", "Desc", "https://t.me/c8", "T2", [⟨"......", "plain", "D", "L", "O"⟩]⟩

/-- Witness for C8 at a concrete page with one post and two distinct
clock readings. -/
theorem pipeline_deterministic_modulo_clock_witness :
    w8Rss1.title = w8Rss2.title
      ∧ w8Rss1.description = w8Rss2.description
      ∧ w8Rss1.link = w8Rss2.link
      ∧ w8Rss1.feeds = w8Rss2.feeds
      ∧ w8Rss1.last_build_date = "T1"
      ∧ w8Rss2.last_build_date = "T2"
      ∧ (∃ pre post, render_rss w8Rss1 = pre ++ "T1" ++ post
          ∧ render_rss w8Rss2 = pre ++ "T2" ++ post)
      ∧ ("T1" = "T2" →
          get_rss_feed w8Soup "https://t.me/s/c8" "T1"
            = get_rss_feed w8Soup "https://t.me/s/c8" "T2") :=
  @pipeline_deterministic_modulo_clock w8Soup "https://t.me/s/c8" "T1" "T2"
    w8Rss1 w8Rss2 rfl rfl
